import Mathlib

/-!
Verification of the authentication session lifecycle of this repository.

The definitions below are a shallow embedding of the client-side code:

* `requestInterceptor` embeds the request interceptor of
  `frontend/lib/api.ts` (attaches the stored access token as a bearer
  header).
* `handleResponse` / `replayCount` embed the single-retry guard of the
  response interceptor (`originalRequest._retry`).
* `CoordState` with `handle401`, `refreshSuccess`, `refreshFailure` embeds
  the refresh coordinator of `frontend/lib/api.ts`: the module-level
  `isRefreshing` flag, the `refreshSubscribers` queue, the `localStorage`
  access token slot, and the settlement of request promises.
* `ClientSession` with `logout`, `checkAuthStatus`, `signup` embeds the
  state transitions of `frontend/contexts/AuthContext.tsx`.
* `authProviderWindowListeners` / `dispatchEvent` embed the window event
  registrations of `AuthProvider` and the `auth:tokenExpired` dispatch of
  the interceptor.
* `guard1Step` / `guard2Step` embed the two versions of
  `frontend/components/ui/AuthGuard.tsx` under the usual React effect
  semantics (an effect re-runs exactly when its dependency array changed
  since the previous committed render).
* `SignupFormState` with `validateForm` / `handleSubmit` embeds the signup
  form of the repository (client-side presence validation before the
  multipart submission).
* `SessionStore` with `setRefreshToken` / `clearRefreshToken` /
  `verifyRefresh` models the server-side Session Record from the spec,
  since the backend user model and controllers are not part of the
  source tree.

Network effects are embedded by passing the outcome of the network call
as an explicit argument (`Except NetError _`), and the single-threaded
event loop of the client is embedded as sequential processing of events.
-/

/-- The authenticated user record, from `frontend/types/auth.ts`. -/
structure User where
  _id : String
  username : String
  email : String
  fullName : String
  avatar : String
  coverImage : Option String
  createdAt : String
  updatedAt : String
  deriving DecidableEq, Repr

/-- Transport-level or HTTP-level failure of a network call. -/
inductive NetError where
  | networkFailure
  | unauthorized
  deriving DecidableEq, Repr

/-- An outbound request configuration: the axios `config` object, with the
bearer authorization header split out and the `_retry` marker used by the
response interceptor. -/
structure RequestConfig where
  url : String
  authorization : Option String
  otherHeaders : List (String × String)
  retry : Bool
  deriving DecidableEq, Repr

/-- The request interceptor of `frontend/lib/api.ts`: reads the access
token from storage and, when one is held, sets the bearer authorization
header; otherwise the config passes through unmodified. -/
def requestInterceptor (storedToken : Option String) (config : RequestConfig) :
    RequestConfig :=
  match storedToken with
  | some token => { config with authorization := some ("Bearer " ++ token) }
  | none => config

/-- The client-held session of `frontend/contexts/AuthContext.tsx`: the
cached identity (`user` state), the access credential in local storage,
and the loading flag. -/
structure ClientSession where
  user : Option User
  accessToken : Option String
  isLoading : Bool
  deriving DecidableEq, Repr

/-- The `logout` operation of `AuthContext.tsx`. The source awaits the
network call first (`await authAPI.logout()`); only when that call
resolves does it run `setUser(null)` and remove the stored access token.
A thrown network error therefore propagates before any local clearing
happens. -/
def logout (netResult : Except NetError Unit) (s : ClientSession) :
    ClientSession × Except NetError Unit :=
  match netResult with
  | .ok _ => ({ s with user := none, accessToken := none }, .ok ())
  | .error e => (s, .error e)

/-- Possible outcomes of the startup probe `authAPI.getCurrentUser()`. -/
inductive ProbeOutcome where
  | success (u : User)
  | unauthorized
  | networkFailure
  deriving DecidableEq, Repr

/-- The `checkAuthStatus` startup probe of `AuthContext.tsx`:
`try { setUser(response.data) } catch { setUser(null) } finally
{ setIsLoading(false) }`. -/
def checkAuthStatus (outcome : ProbeOutcome) (s : ClientSession) :
    ClientSession :=
  match outcome with
  | .success u => { s with user := some u, isLoading := false }
  | .unauthorized => { s with user := none, isLoading := false }
  | .networkFailure => { s with user := none, isLoading := false }

/-- The `signup` operation of `AuthContext.tsx`: on success caches the
returned identity and stores the access token; on failure the error
propagates with the session unchanged. -/
def signup (serverResult : Except NetError (User × String)) (s : ClientSession) :
    ClientSession × Except NetError Unit :=
  match serverResult with
  | .ok (u, tok) => ({ s with user := some u, accessToken := some tok }, .ok ())
  | .error e => (s, .error e)

/-- The window event listeners registered by `AuthProvider` in
`AuthContext.tsx`. In the source the only mount effect calls
`checkAuthStatus`; no `window.addEventListener` call occurs anywhere in
the component, so the registration list is empty. -/
def authProviderWindowListeners :
    List (String × (ClientSession → ClientSession)) := []

/-- Dispatching a window custom event: every listener registered for the
event name runs, in registration order, over the session state. -/
def dispatchEvent (listeners : List (String × (ClientSession → ClientSession)))
    (name : String) (s : ClientSession) : ClientSession :=
  (listeners.filter (fun p => p.1 == name)).foldl (fun st p => p.2 st) s

/-- A concrete user record, used for concrete evaluations. -/
def sampleUser : User :=
  { _id := "u1", username := "anas", email := "a@b.c", fullName := "Anas",
    avatar := "avatar.png", coverImage := none, createdAt := "t0",
    updatedAt := "t0" }

/-- A concrete authenticated client session. -/
def authedSession : ClientSession :=
  { user := some sampleUser, accessToken := some "tokA", isLoading := false }

/-- C7: through the Request Gateway, a held access credential is attached
as a bearer Authorization header, and with no credential held the config
passes through with no Authorization header added and otherwise
unmodified. -/
theorem C7_bearer_header (t : String) (config : RequestConfig) :
    requestInterceptor (some t) config =
      { config with authorization := some ("Bearer " ++ t) } ∧
    requestInterceptor none config = config := by
  constructor <;> rfl

/-- C3 counterexample: when the logout network call fails, the `logout` of
`AuthContext.tsx` leaves the cached identity and the stored access
credential in place (the `await` throws before `setUser(null)` runs), so
the client does not transition to unauthenticated — contrary to the
claim that local state is cleared even on network failure. -/
theorem C3_counterexample :
    (logout (.error .networkFailure) authedSession).1.user = some sampleUser ∧
    (logout (.error .networkFailure) authedSession).1.accessToken = some "tokA" := by
  constructor <;> rfl

/-- C3 (amended): logout clears the cached identity and the stored access
credential and transitions to unauthenticated exactly when the logout
network call succeeds; when the network call fails, the error propagates
and the local session state is left unchanged. -/
theorem C3_logout (s : ClientSession) (e : NetError) :
    (logout (.ok ()) s).1.user = none ∧
    (logout (.ok ()) s).1.accessToken = none ∧
    (logout (.error e) s).1 = s ∧
    (logout (.error e) s).2 = .error e := by
  refine ⟨rfl, rfl, rfl, rfl⟩

/-- C10: whatever the outcome of the startup probe — success, 401, or a
transport-level failure — the loading flag is false afterwards, and on
either kind of failure the cached identity is null (reported as
unauthenticated, not as a distinct error state). -/
theorem C10_probe_settles (o : ProbeOutcome) (s : ClientSession) :
    (checkAuthStatus o s).isLoading = false ∧
    (checkAuthStatus .unauthorized s).user = none ∧
    (checkAuthStatus .networkFailure s).user = none := by
  refine ⟨?_, rfl, rfl⟩
  cases o <;> rfl

/-- C5: the code bug evaluated at the failing input. The coordinator
dispatches `auth:tokenExpired`, but `AuthProvider` registers no listener
for it, so dispatching the forced-sign-out signal on an authenticated
session leaves the cached identity and access credential untouched and
the state remains authenticated — the Session Context never reacts. -/
theorem C5_signal_ignored :
    dispatchEvent authProviderWindowListeners "auth:tokenExpired" authedSession
      = authedSession ∧
    (dispatchEvent authProviderWindowListeners "auth:tokenExpired"
      authedSession).user = some sampleUser := by
  constructor <;> rfl

/-- The 401 guard of the response interceptor in `frontend/lib/api.ts`:
`if (error.response?.status === 401 && !originalRequest._retry)` the
request is marked retried and replayed (returning the updated config);
otherwise the error propagates to the caller (`none`). -/
def handleResponse (config : RequestConfig) (status : Nat) :
    Option RequestConfig :=
  if status = 401 ∧ config.retry = false then
    some { config with retry := true }
  else none

/-- Number of times one request is replayed across a sequence of response
statuses: each replay feeds the updated config to the next status; a
propagated error or a success ends the sequence. -/
def replayCount (config : RequestConfig) : List Nat → Nat
  | [] => 0
  | status :: rest =>
    match handleResponse config status with
    | some config2 => 1 + replayCount config2 rest
    | none => 0

theorem replayCount_of_retry (config : RequestConfig)
    (h : config.retry = true) (statuses : List Nat) :
    replayCount config statuses = 0 := by
  cases statuses with
  | nil => rfl
  | cons status rest =>
    simp [replayCount, handleResponse, h]

/-- C2: a 401 triggers the refresh path only when the request has not
already been retried; the replayed request carries the retry mark, a
second 401 on it propagates with no further replay, and in total no
request is ever replayed more than once. -/
theorem C2_single_retry (config : RequestConfig) (statuses : List Nat) :
    replayCount config statuses ≤ 1 ∧
    (config.retry = true → replayCount config statuses = 0) ∧
    (∀ config2, handleResponse config 401 = some config2 →
      handleResponse config2 401 = none) := by
  refine ⟨?_, fun h => replayCount_of_retry config h statuses, ?_⟩
  · cases statuses with
    | nil => exact Nat.zero_le 1
    | cons status rest =>
      by_cases h : status = 401 ∧ config.retry = false
      · simp [replayCount, handleResponse, h,
          replayCount_of_retry { config with retry := true } rfl rest]
      · simp [replayCount, handleResponse, h]
  · intro config2 h
    unfold handleResponse at h
    by_cases hc : (401 : Nat) = 401 ∧ config.retry = false
    · rw [if_pos hc] at h
      cases h
      simp [handleResponse]
    · rw [if_neg hc] at h
      cases h

/-- C2 witness: a request already marked retried is never replayed, at a
concrete config and status sequence. -/
theorem C2_single_retry_witness :
    replayCount
      { url := "/users/me", authorization := none, otherHeaders := [],
        retry := true } [401, 401] = 0 :=
  (C2_single_retry
    { url := "/users/me", authorization := none, otherHeaders := [],
      retry := true } [401, 401]).2.1 rfl

/-- How one request promise was finally settled by the coordinator. -/
inductive ReqOutcome where
  | replayed (token : String)
  | failed
  deriving DecidableEq, Repr

/-- The refresh coordinator state of `frontend/lib/api.ts`: the
module-level `isRefreshing` flag and `refreshSubscribers` queue, the
`localStorage` access token, a counter of calls to the refresh endpoint,
the request whose handler owns the in-flight refresh call, the settled
request promises, and whether `auth:tokenExpired` was dispatched. -/
structure CoordState where
  isRefreshing : Bool
  refreshSubscribers : List Nat
  storedToken : Option String
  refreshCalls : Nat
  initiator : Option Nat
  settled : List (Nat × ReqOutcome)
  tokenExpiredEmitted : Bool
  deriving DecidableEq, Repr

/-- The coordinator before any 401 arrives: no refresh in flight, empty
queue, nothing settled. -/
def initialCoordState : CoordState :=
  { isRefreshing := false, refreshSubscribers := [], storedToken := none,
    refreshCalls := 0, initiator := none, settled := [],
    tokenExpiredEmitted := false }

/-- Handling one 401 response in the interceptor: a request already
retried is rejected to its caller; otherwise, when a refresh is in
flight the request is appended to `refreshSubscribers` (its promise now
pends on the queue); otherwise the handler sets `isRefreshing`, makes
the one call to the refresh endpoint, and awaits it as initiator. -/
def handle401 (st : CoordState) (rid : Nat) (retry : Bool) : CoordState :=
  if retry then { st with settled := st.settled ++ [(rid, .failed)] }
  else if st.isRefreshing then
    { st with refreshSubscribers := st.refreshSubscribers ++ [rid] }
  else
    { st with
      isRefreshing := true
      refreshCalls := st.refreshCalls + 1
      initiator := some rid }

/-- Resolution of the in-flight refresh call with a new access token:
the token is stored, `onTokenRefreshed` drains the queue replaying every
subscriber with the new token, `isRefreshing` is cleared, and the
initiating request is replayed with the same token. -/
def refreshSuccess (st : CoordState) (t : String) : CoordState :=
  { st with
    storedToken := some t,
    settled := st.settled ++ st.refreshSubscribers.map (fun r => (r, .replayed t))
      ++ (match st.initiator with
          | some r => [(r, .replayed t)]
          | none => []),
    refreshSubscribers := [],
    isRefreshing := false,
    initiator := none }

/-- Rejection of the in-flight refresh call (the catch block): the stored
token is removed, `isRefreshing` is cleared, `refreshSubscribers` is
reset to the empty list without invoking any queued callback, the
`auth:tokenExpired` event is dispatched, and the initiating request is
failed with the refresh error. -/
def refreshFailure (st : CoordState) : CoordState :=
  { st with
    storedToken := none,
    isRefreshing := false,
    refreshSubscribers := [],
    tokenExpiredEmitted := true,
    settled := st.settled ++ (match st.initiator with
      | some r => [(r, .failed)]
      | none => []),
    initiator := none }

/-- Processing a batch of fresh (never-retried) 401 failures arriving
while the same refresh cycle is open. -/
def handleAll (st : CoordState) (rids : List Nat) : CoordState :=
  rids.foldl (fun s r => handle401 s r false) st

theorem handleAll_refreshing (rids : List Nat) (st : CoordState)
    (h : st.isRefreshing = true) :
    handleAll st rids =
      { st with refreshSubscribers := st.refreshSubscribers ++ rids } := by
  induction rids generalizing st with
  | nil => simp [handleAll]
  | cons r rest ih =>
    have hstep : handle401 st r false =
        { st with refreshSubscribers := st.refreshSubscribers ++ [r] } := by
      simp [handle401, h]
    have hrec := ih { st with refreshSubscribers := st.refreshSubscribers ++ [r] } h
    calc handleAll st (r :: rest)
        = handleAll (handle401 st r false) rest := rfl
      _ = { st with refreshSubscribers := st.refreshSubscribers ++ (r :: rest) } := by
          rw [hstep, hrec]
          simp

theorem handleAll_from_start (r1 : Nat) (rids : List Nat) :
    handleAll initialCoordState (r1 :: rids) =
      { isRefreshing := true, refreshSubscribers := rids, storedToken := none,
        refreshCalls := 1, initiator := some r1, settled := [],
        tokenExpiredEmitted := false } := by
  have h1 : handle401 initialCoordState r1 false =
      { isRefreshing := true, refreshSubscribers := [], storedToken := none,
        refreshCalls := 1, initiator := some r1, settled := [],
        tokenExpiredEmitted := false } := by
    simp [handle401, initialCoordState]
  have h2 : handleAll initialCoordState (r1 :: rids)
      = handleAll (handle401 initialCoordState r1 false) rids := rfl
  rw [h2, h1, handleAll_refreshing rids _ rfl]
  simp

/-- C1 (amended): for N >= 2 concurrent requests that each fail with 401
with no retry mark during the same expiry window, exactly one refresh
call is made and no request completes before that call resolves; when
the refresh call succeeds, every one of the N requests is replayed after
it resolves and all observe the same renewed access credential; when the
refresh call fails, the initiating request fails after it resolves while
the queued requests are dropped unsettled (their promises never
complete). -/
theorem C1_refresh_dedup (r1 r2 : Nat) (rest : List Nat) (t : String) :
    (handleAll initialCoordState (r1 :: r2 :: rest)).refreshCalls = 1 ∧
    (handleAll initialCoordState (r1 :: r2 :: rest)).settled = [] ∧
    (refreshSuccess (handleAll initialCoordState (r1 :: r2 :: rest)) t).settled =
      (r2 :: rest).map (fun r => (r, ReqOutcome.replayed t))
        ++ [(r1, ReqOutcome.replayed t)] ∧
    (refreshSuccess (handleAll initialCoordState (r1 :: r2 :: rest)) t).storedToken
      = some t ∧
    (refreshFailure (handleAll initialCoordState (r1 :: r2 :: rest))).settled
      = [(r1, ReqOutcome.failed)] ∧
    (refreshFailure (handleAll initialCoordState (r1 :: r2 :: rest))).refreshSubscribers
      = [] := by
  rw [handleAll_from_start r1 (r2 :: rest)]
  refine ⟨rfl, rfl, ?_, rfl, ?_, rfl⟩
  · simp [refreshSuccess]
  · simp [refreshFailure]

/-- The coordinator state after two fresh 401 failures enter the same
refresh cycle and the refresh call then fails. -/
def c1FailTrace : CoordState :=
  refreshFailure (handle401 (handle401 initialCoordState 1 false) 2 false)

/-- C1 counterexample: request 2 was queued behind the refresh triggered
by request 1, the refresh call failed, and the coordinator dropped the
queue without settling it: request 2 appears in no settlement, no queue
and no initiator slot afterwards (and even a later successful refresh
settles only its own cycle), so request 2 never completes — contrary to
the claim that every one of the N requests completes (replayed or
uniformly failed). -/
theorem C1_counterexample :
    (handle401 (handle401 initialCoordState 1 false) 2 false).refreshSubscribers
      = [2] ∧
    c1FailTrace.settled = [(1, ReqOutcome.failed)] ∧
    (c1FailTrace.settled.map Prod.fst).contains 2 = false ∧
    c1FailTrace.refreshSubscribers = [] ∧
    c1FailTrace.initiator = none ∧
    ((refreshSuccess c1FailTrace "t2").settled.map Prod.fst).contains 2 = false := by
  refine ⟨rfl, rfl, rfl, rfl, rfl, rfl⟩

/-- C4 (amended): when the in-flight refresh call fails, the coordinator
clears the stored access credential and the in-flight flag, discards the
queued callbacks without settling them (each waiting promise stays
pending), emits the forced-sign-out signal, and fails the original
request. -/
theorem C4_refresh_failure (st : CoordState) (r : Nat)
    (h : st.initiator = some r) :
    (refreshFailure st).storedToken = none ∧
    (refreshFailure st).isRefreshing = false ∧
    (refreshFailure st).refreshSubscribers = [] ∧
    (refreshFailure st).tokenExpiredEmitted = true ∧
    (refreshFailure st).settled = st.settled ++ [(r, ReqOutcome.failed)] ∧
    (refreshFailure st).initiator = none := by
  refine ⟨rfl, rfl, rfl, rfl, ?_, rfl⟩
  simp [refreshFailure, h]

/-- The coordinator state after requests 5 and 6 enter one refresh cycle. -/
def c4State : CoordState :=
  handle401 (handle401 initialCoordState 5 false) 6 false

/-- C4 witness: the failure theorem applied at a concrete coordinator
state whose in-flight refresh was initiated by request 5. -/
theorem C4_refresh_failure_witness :
    c4State.initiator = some 5 ∧
    (refreshFailure c4State).settled = c4State.settled ++ [(5, ReqOutcome.failed)] ∧
    (refreshFailure c4State).tokenExpiredEmitted = true :=
  ⟨rfl, (C4_refresh_failure c4State 5 rfl).2.2.2.2.1,
    (C4_refresh_failure c4State 5 rfl).2.2.2.1⟩

/-- The coordinator state after requests 7 and 8 enter one refresh cycle
and the refresh call fails. -/
def c4FailTrace : CoordState :=
  refreshFailure (handle401 (handle401 initialCoordState 7 false) 8 false)

/-- C4 counterexample: request 8 was in the wait queue when the refresh
call failed, yet it is not settled with the failure — the queue is
discarded uninvoked, so the waiting promise of request 8 is left pending,
contrary to the claim that every queued callback is rejected. -/
theorem C4_counterexample :
    (handle401 (handle401 initialCoordState 7 false) 8 false).refreshSubscribers
      = [8] ∧
    (c4FailTrace.settled.map Prod.fst).contains 8 = false ∧
    c4FailTrace.settled = [(7, ReqOutcome.failed)] := by
  refine ⟨rfl, rfl, rfl⟩

/-- The Session Context state observed by the guard at one render:
`isLoading` and `isAuthenticated` from `useAuth()`. -/
structure AuthSnapshot where
  isLoading : Bool
  isAuthenticated : Bool
  deriving DecidableEq, Repr

/-- The props of `AuthGuard.tsx` (the `children` prop is represented by
the `children` render result). -/
structure GuardProps where
  requireAuth : Bool
  redirectTo : String
  deriving DecidableEq, Repr

/-- What one render of the guard displays. -/
inductive GuardRender where
  | placeholder
  | nothing
  | children
  deriving DecidableEq, Repr

/-- The render body shared by both versions of `AuthGuard.tsx`: a neutral
loading placeholder while loading, nothing while a redirect is due,
otherwise the children. -/
def renderGuard (p : GuardProps) (a : AuthSnapshot) : GuardRender :=
  if a.isLoading then .placeholder
  else if p.requireAuth && !a.isAuthenticated then .nothing
  else if !p.requireAuth && a.isAuthenticated then .nothing
  else .children

/-- The redirect effect body of the first `AuthGuard` version: guarded by
the `hasRedirected` ref; returns the updated ref value and the redirects
issued by `router.replace`. -/
def guard1Effect (p : GuardProps) (a : AuthSnapshot) (hasRedirected : Bool) :
    Bool × List String :=
  if !a.isLoading && !hasRedirected then
    if p.requireAuth && !a.isAuthenticated then (true, [p.redirectTo])
    else if !p.requireAuth && a.isAuthenticated then (true, ["/dashboard"])
    else (hasRedirected, [])
  else (hasRedirected, [])

/-- The committed state of the first `AuthGuard` version between renders:
the `hasRedirected` ref, the last committed dependency array of the
redirect effect (the changing dependencies are `isLoading` and
`isAuthenticated`; props are constant), and the last committed dependency
of the reset effect (`isAuthenticated`). -/
structure Guard1State where
  hasRedirected : Bool
  prevDeps : Option AuthSnapshot
  prevAuth : Option Bool
  deriving DecidableEq, Repr

/-- The first guard version at mount: ref false, no committed effects. -/
def guard1Mount : Guard1State :=
  { hasRedirected := false, prevDeps := none, prevAuth := none }

/-- One render-and-commit cycle of the first `AuthGuard` version: the
component renders from the snapshot, then the redirect effect runs when
its dependencies changed since the last commit, then the reset effect
(`hasRedirected.current = false`) runs when `isAuthenticated` changed.
Returns the new committed state, the render output, and the redirects
issued this cycle. -/
def guard1Step (p : GuardProps) (g : Guard1State) (a : AuthSnapshot) :
    Guard1State × (GuardRender × List String) :=
  ({ hasRedirected :=
      if g.prevAuth = some a.isAuthenticated then
        (if g.prevDeps = some a then (g.hasRedirected, ([] : List String))
         else guard1Effect p a g.hasRedirected).1
      else false
     prevDeps := some a
     prevAuth := some a.isAuthenticated },
   (renderGuard p a,
    (if g.prevDeps = some a then (g.hasRedirected, ([] : List String))
     else guard1Effect p a g.hasRedirected).2))

/-- Running the first guard version over a sequence of observed render
cycles, collecting each render output and the redirects it issued. -/
def guard1Run (p : GuardProps) (g : Guard1State) :
    List AuthSnapshot → Guard1State × List (GuardRender × List String)
  | [] => (g, [])
  | a :: rest =>
    ((guard1Run p (guard1Step p g a).1 rest).1,
      (guard1Step p g a).2 :: (guard1Run p (guard1Step p g a).1 rest).2)

/-- The redirect effect body of the second `AuthGuard` version (no
`hasRedirected` ref): issues `router.push` whenever it runs resolved. -/
def guard2Effect (p : GuardProps) (a : AuthSnapshot) : List String :=
  if !a.isLoading then
    if p.requireAuth && !a.isAuthenticated then [p.redirectTo]
    else if !p.requireAuth && a.isAuthenticated then ["/dashboard"]
    else []
  else []

/-- The committed state of the second `AuthGuard` version: the last
committed dependency array of its single effect. -/
structure Guard2State where
  prevDeps : Option AuthSnapshot
  deriving DecidableEq, Repr

/-- The second guard version at mount. -/
def guard2Mount : Guard2State := { prevDeps := none }

/-- One render-and-commit cycle of the second `AuthGuard` version. -/
def guard2Step (p : GuardProps) (g : Guard2State) (a : AuthSnapshot) :
    Guard2State × (GuardRender × List String) :=
  ({ prevDeps := some a },
   (renderGuard p a, if g.prevDeps = some a then [] else guard2Effect p a))

/-- Running the second guard version over a sequence of render cycles. -/
def guard2Run (p : GuardProps) (g : Guard2State) :
    List AuthSnapshot → Guard2State × List (GuardRender × List String)
  | [] => (g, [])
  | a :: rest =>
    ((guard2Run p (guard2Step p g a).1 rest).1,
      (guard2Step p g a).2 :: (guard2Run p (guard2Step p g a).1 rest).2)

theorem guard1Run_stable (p : GuardProps) (a : AuthSnapshot) (n : Nat) :
    ∀ g : Guard1State, g.prevDeps = some a →
      g.prevAuth = some a.isAuthenticated →
      guard1Run p g (List.replicate n a) =
        (g, List.replicate n (renderGuard p a, [])) := by
  induction n with
  | zero => intro g _ _; rfl
  | succ n ih =>
    intro g hd ha
    obtain ⟨hr, pd, pa⟩ := g
    simp only [Guard1State.mk.injEq] at hd ha
    subst hd
    subst ha
    have hstep : guard1Step p ⟨hr, some a, some a.isAuthenticated⟩ a =
        (⟨hr, some a, some a.isAuthenticated⟩, (renderGuard p a, [])) := by
      simp [guard1Step]
    rw [List.replicate_succ, guard1Run, hstep]
    rw [ih ⟨hr, some a, some a.isAuthenticated⟩ rfl rfl]
    rfl

theorem guard2Run_stable (p : GuardProps) (a : AuthSnapshot) (n : Nat) :
    ∀ g : Guard2State, g.prevDeps = some a →
      guard2Run p g (List.replicate n a) =
        (g, List.replicate n (renderGuard p a, [])) := by
  induction n with
  | zero => intro g _; rfl
  | succ n ih =>
    intro g hd
    obtain ⟨pd⟩ := g
    simp only [Guard2State.mk.injEq] at hd
    subst hd
    have hstep : guard2Step p ⟨some a⟩ a = (⟨some a⟩, (renderGuard p a, [])) := by
      simp [guard2Step]
    rw [List.replicate_succ, guard2Run, hstep]
    rw [ih ⟨some a⟩ rfl]
    rfl

theorem guard1Run_append (p : GuardProps) (g : Guard1State)
    (xs ys : List AuthSnapshot) :
    guard1Run p g (xs ++ ys) =
      ((guard1Run p (guard1Run p g xs).1 ys).1,
        (guard1Run p g xs).2 ++ (guard1Run p (guard1Run p g xs).1 ys).2) := by
  induction xs generalizing g with
  | nil => simp [guard1Run]
  | cons a rest ih =>
    rw [List.cons_append, guard1Run, ih]
    rfl

theorem guard2Run_append (p : GuardProps) (g : Guard2State)
    (xs ys : List AuthSnapshot) :
    guard2Run p g (xs ++ ys) =
      ((guard2Run p (guard2Run p g xs).1 ys).1,
        (guard2Run p g xs).2 ++ (guard2Run p (guard2Run p g xs).1 ys).2) := by
  induction xs generalizing g with
  | nil => simp [guard2Run]
  | cons a rest ih =>
    rw [List.cons_append, guard2Run, ih]
    rfl

theorem guard1Run_loading (p : GuardProps) (b : Bool) (m : Nat) :
    guard1Run p guard1Mount (List.replicate (m + 1) ⟨true, b⟩) =
      (⟨false, some ⟨true, b⟩, some b⟩,
        List.replicate (m + 1) (GuardRender.placeholder, [])) := by
  have hstep : guard1Step p guard1Mount ⟨true, b⟩ =
      (⟨false, some ⟨true, b⟩, some b⟩, (GuardRender.placeholder, [])) := rfl
  rw [List.replicate_succ, guard1Run, hstep]
  rw [guard1Run_stable p ⟨true, b⟩ m ⟨false, some ⟨true, b⟩, some b⟩ rfl rfl]
  rfl

theorem guard2Run_loading (p : GuardProps) (b : Bool) (m : Nat) :
    guard2Run p guard2Mount (List.replicate (m + 1) ⟨true, b⟩) =
      (⟨some ⟨true, b⟩⟩,
        List.replicate (m + 1) (GuardRender.placeholder, [])) := by
  have hstep : guard2Step p guard2Mount ⟨true, b⟩ =
      (⟨some ⟨true, b⟩⟩, (GuardRender.placeholder, [])) := by
    simp [guard2Step, guard2Mount, guard2Effect, renderGuard]
  rw [List.replicate_succ, guard2Run, hstep]
  rw [guard2Run_stable p ⟨true, b⟩ m ⟨some ⟨true, b⟩⟩ rfl]
  rfl

theorem guard1Run_resolved (rt : String) (b : Bool) (k : Nat) :
    guard1Run ⟨true, rt⟩ ⟨false, some ⟨true, b⟩, some b⟩
        (List.replicate (k + 1) ⟨false, false⟩) =
      (⟨b == false, some ⟨false, false⟩, some false⟩,
        (GuardRender.nothing, [rt]) :: List.replicate k (GuardRender.nothing, [])) := by
  cases b with
  | false =>
    have hstep : guard1Step ⟨true, rt⟩ ⟨false, some ⟨true, false⟩, some false⟩
        ⟨false, false⟩ =
        (⟨true, some ⟨false, false⟩, some false⟩, (GuardRender.nothing, [rt])) := rfl
    rw [List.replicate_succ, guard1Run, hstep]
    rw [guard1Run_stable ⟨true, rt⟩ ⟨false, false⟩ k
      ⟨true, some ⟨false, false⟩, some false⟩ rfl rfl]
    rfl
  | true =>
    have hstep : guard1Step ⟨true, rt⟩ ⟨false, some ⟨true, true⟩, some true⟩
        ⟨false, false⟩ =
        (⟨false, some ⟨false, false⟩, some false⟩, (GuardRender.nothing, [rt])) := rfl
    rw [List.replicate_succ, guard1Run, hstep]
    rw [guard1Run_stable ⟨true, rt⟩ ⟨false, false⟩ k
      ⟨false, some ⟨false, false⟩, some false⟩ rfl rfl]
    rfl

theorem guard1Run_resolved_mount (rt : String) (k : Nat) :
    guard1Run ⟨true, rt⟩ guard1Mount
        (List.replicate (k + 1) ⟨false, false⟩) =
      (⟨false, some ⟨false, false⟩, some false⟩,
        (GuardRender.nothing, [rt]) :: List.replicate k (GuardRender.nothing, [])) := by
  have hstep : guard1Step ⟨true, rt⟩ guard1Mount ⟨false, false⟩ =
      (⟨false, some ⟨false, false⟩, some false⟩, (GuardRender.nothing, [rt])) := rfl
  rw [List.replicate_succ, guard1Run, hstep]
  rw [guard1Run_stable ⟨true, rt⟩ ⟨false, false⟩ k
    ⟨false, some ⟨false, false⟩, some false⟩ rfl rfl]
  rfl

theorem guard2Run_resolved (rt : String) (b : Bool) (k : Nat) :
    guard2Run ⟨true, rt⟩ ⟨some ⟨true, b⟩⟩
        (List.replicate (k + 1) ⟨false, false⟩) =
      (⟨some ⟨false, false⟩⟩,
        (GuardRender.nothing, [rt]) :: List.replicate k (GuardRender.nothing, [])) := by
  have hstep : guard2Step ⟨true, rt⟩ ⟨some ⟨true, b⟩⟩ ⟨false, false⟩ =
      (⟨some ⟨false, false⟩⟩, (GuardRender.nothing, [rt])) := by
    cases b <;> rfl
  rw [List.replicate_succ, guard2Run, hstep]
  rw [guard2Run_stable ⟨true, rt⟩ ⟨false, false⟩ k ⟨some ⟨false, false⟩⟩ rfl]
  rfl

theorem guard2Run_resolved_mount (rt : String) (k : Nat) :
    guard2Run ⟨true, rt⟩ guard2Mount
        (List.replicate (k + 1) ⟨false, false⟩) =
      (⟨some ⟨false, false⟩⟩,
        (GuardRender.nothing, [rt]) :: List.replicate k (GuardRender.nothing, [])) := by
  have hstep : guard2Step ⟨true, rt⟩ guard2Mount ⟨false, false⟩ =
      (⟨some ⟨false, false⟩⟩, (GuardRender.nothing, [rt])) := rfl
  rw [List.replicate_succ, guard2Run, hstep]
  rw [guard2Run_stable ⟨true, rt⟩ ⟨false, false⟩ k ⟨some ⟨false, false⟩⟩ rfl]
  rfl

/-- C6: in both versions of the Route Guard with `requireAuth = true`,
over any run of `m` loading renders followed by at least one
resolved-unauthenticated render, every loading cycle shows the neutral
placeholder and issues no redirect; the first resolved-unauthenticated
cycle issues the redirect to the login target; and every later re-render
with unchanged authentication state issues no redirect again. -/
theorem C6_guard_redirect_once (rt : String) (m k : Nat) (b : Bool) :
    (guard1Run ⟨true, rt⟩ guard1Mount
        (List.replicate m ⟨true, b⟩ ++ List.replicate (k + 1) ⟨false, false⟩)).2
      = List.replicate m (GuardRender.placeholder, [])
          ++ (GuardRender.nothing, [rt])
            :: List.replicate k (GuardRender.nothing, []) ∧
    (guard2Run ⟨true, rt⟩ guard2Mount
        (List.replicate m ⟨true, b⟩ ++ List.replicate (k + 1) ⟨false, false⟩)).2
      = List.replicate m (GuardRender.placeholder, [])
          ++ (GuardRender.nothing, [rt])
            :: List.replicate k (GuardRender.nothing, []) := by
  constructor
  · cases m with
    | zero =>
      rw [List.replicate_zero, List.nil_append, guard1Run_resolved_mount]
      rfl
    | succ m2 =>
      have h1 := guard1Run_loading ⟨true, rt⟩ b m2
      have h2 := guard1Run_resolved rt b k
      simp only [guard1Run_append, h1, h2]
  · cases m with
    | zero =>
      rw [List.replicate_zero, List.nil_append, guard2Run_resolved_mount]
      rfl
    | succ m2 =>
      have h1 := guard2Run_loading ⟨true, rt⟩ b m2
      have h2 := guard2Run_resolved rt b k
      simp only [guard2Run_append, h1, h2]

/-- The signup form fields: the text inputs (missing is the empty string,
matching the falsiness check of the source) and the two file inputs
(`File | null`, embedded as an optional file reference). -/
structure SignupFormState where
  username : String
  email : String
  password : String
  fullName : String
  avatar : Option String
  coverImage : Option String
  deriving DecidableEq, Repr

/-- The `validateForm` of the signup form: one error entry per missing
required field; username, email, password, full name and avatar are
required, the cover image is not checked. -/
def validateForm (f : SignupFormState) : List (String × String) :=
  (if f.username = "" then [("username", "Username is required")] else [])
    ++ (if f.email = "" then [("email", "Email is required")] else [])
    ++ (if f.password = "" then [("password", "Password is required")] else [])
    ++ (if f.fullName = "" then [("fullName", "Full name is required")] else [])
    ++ (if f.avatar = none then [("avatar", "Avatar is required")] else [])

/-- The multipart payload built by `handleSubmit`: the four text fields,
the avatar when present, the cover image when present. -/
def buildFormData (f : SignupFormState) : List (String × String) :=
  [("username", f.username), ("email", f.email), ("password", f.password),
    ("fullName", f.fullName)]
    ++ (match f.avatar with | some a => [("avatar", a)] | none => [])
    ++ (match f.coverImage with | some c => [("coverImage", c)] | none => [])

/-- Whether the submission reached the network, and with what payload. -/
inductive SubmitAction where
  | noNetworkCall
  | sent (payload : List (String × String))
  deriving DecidableEq, Repr

/-- The `handleSubmit` of the signup form combined with the Session
Context `signup`: when validation fails it returns before any network
call; otherwise the multipart payload is sent and, on a successful
response, the returned identity and access token become the session. -/
def handleSubmit (f : SignupFormState)
    (serverResult : Except NetError (User × String)) (s : ClientSession) :
    SubmitAction × ClientSession :=
  if (validateForm f).isEmpty then
    (.sent (buildFormData f), (signup serverResult s).1)
  else (.noNetworkCall, s)

theorem validateForm_empty_iff (f : SignupFormState) :
    (validateForm f).isEmpty = true ↔
      (f.username ≠ "" ∧ f.email ≠ "" ∧ f.password ≠ "" ∧ f.fullName ≠ "" ∧
        f.avatar ≠ none) := by
  simp [validateForm, List.isEmpty_iff, List.append_eq_nil, ite_eq_right_iff]

/-- C8: a signup submission missing any of username, email, password,
full name or avatar fails client-side validation and makes no network
call; a submission with all required fields and an avatar sends the
multipart payload, and on a successful response the returned identity
becomes the current session with the returned access token stored. -/
theorem C8_signup_validation (f : SignupFormState)
    (res : Except NetError (User × String)) (s : ClientSession)
    (u : User) (tok : String) :
    (f.username = "" ∨ f.email = "" ∨ f.password = "" ∨ f.fullName = "" ∨
        f.avatar = none →
      handleSubmit f res s = (.noNetworkCall, s)) ∧
    (f.username ≠ "" → f.email ≠ "" → f.password ≠ "" → f.fullName ≠ "" →
      f.avatar ≠ none →
      (handleSubmit f res s).1 = .sent (buildFormData f) ∧
      (handleSubmit f (.ok (u, tok)) s).2.user = some u ∧
      (handleSubmit f (.ok (u, tok)) s).2.accessToken = some tok) := by
  constructor
  · intro h
    have hne : (validateForm f).isEmpty = false := by
      rw [← Bool.not_eq_true]
      intro hemp
      have hall := (validateForm_empty_iff f).1 hemp
      rcases h with h | h | h | h | h <;> tauto
    simp [handleSubmit, hne]
  · intro h1 h2 h3 h4 h5
    have hemp : (validateForm f).isEmpty = true :=
      (validateForm_empty_iff f).2 ⟨h1, h2, h3, h4, h5⟩
    refine ⟨?_, ?_, ?_⟩ <;> simp [handleSubmit, hemp, signup]

/-- A signup form missing only the required avatar file. -/
def incompleteSignupForm : SignupFormState :=
  { username := "anas", email := "a@b.c", password := "pw", fullName := "Anas",
    avatar := none, coverImage := none }

/-- A signup form with every required field and an avatar present. -/
def completeSignupForm : SignupFormState :=
  { username := "anas", email := "a@b.c", password := "pw", fullName := "Anas",
    avatar := some "avatar.png", coverImage := none }

/-- A fresh unauthenticated client session after the startup probe. -/
def startSession : ClientSession :=
  { user := none, accessToken := none, isLoading := false }

/-- C8 witness: without an avatar no network call is made; with all
fields present the payload is sent and the returned identity is cached,
at concrete inputs. -/
theorem C8_signup_validation_witness :
    handleSubmit incompleteSignupForm (.ok (sampleUser, "tokB")) startSession
      = (.noNetworkCall, startSession) ∧
    (handleSubmit completeSignupForm (.ok (sampleUser, "tokB")) startSession).1
      = .sent (buildFormData completeSignupForm) ∧
    (handleSubmit completeSignupForm (.ok (sampleUser, "tokB")) startSession).2.user
      = some sampleUser :=
  ⟨(C8_signup_validation incompleteSignupForm (.ok (sampleUser, "tokB"))
      startSession sampleUser "tokB").1
        (Or.inr (Or.inr (Or.inr (Or.inr rfl)))),
   ((C8_signup_validation completeSignupForm (.ok (sampleUser, "tokB"))
      startSession sampleUser "tokB").2
        (by decide) (by decide) (by decide) (by decide) (by decide)).1,
   ((C8_signup_validation completeSignupForm (.ok (sampleUser, "tokB"))
      startSession sampleUser "tokB").2
        (by decide) (by decide) (by decide) (by decide) (by decide)).2.1⟩

/-- Modelled from the spec: the server-side Session Record. The backend
user model and controllers are not in the source tree (only `app.js` and
the database bootstrap are), so this follows the words of the spec: a
durable association from identity id to the single currently valid
refresh credential. -/
abbrev SessionStore := String → Option String

/-- Modelled from the spec: a Session Store with no record. -/
def emptySessionStore : SessionStore := fun _ => none

/-- Modelled from the spec: issuing a refresh credential writes it into
the Session Record, overwriting any previously stored value (overwrite,
not append). -/
def setRefreshToken (store : SessionStore) (idv tok : String) : SessionStore :=
  fun i => if i = idv then some tok else store i

/-- Modelled from the spec: logout clears the Session Record for the
identity; idempotent. -/
def clearRefreshToken (store : SessionStore) (idv : String) : SessionStore :=
  fun i => if i = idv then none else store i

/-- Failure modes of credential verification, from the error taxonomy. -/
inductive AuthError where
  | tokenExpired
  | tokenInvalid
  | tokenRevoked
  deriving DecidableEq, Repr

/-- Modelled from the spec: `verifyRefresh` returns the identity id when
the presented token matches the currently stored Session Record value,
and fails with `tokenRevoked` when it does not match or the record is
empty (covers logout and the single-session overwrite). -/
def verifyRefresh (store : SessionStore) (idv tok : String) :
    Except AuthError String :=
  match store idv with
  | some stored => if tok = stored then .ok idv else .error .tokenRevoked
  | none => .error .tokenRevoked

/-- C9: the Session Record holds at most one live refresh credential per
identity: issuing a new credential overwrites the previous one, so a
refresh attempt presenting the superseded credential fails with
`tokenRevoked`; and after logout clears the record, every refresh
attempt with the pre-logout credential fails. -/
theorem C9_single_session (store : SessionStore) (idv t1 t2 tok : String)
    (hne : t1 ≠ t2) :
    (setRefreshToken (setRefreshToken store idv t1) idv t2) idv = some t2 ∧
    verifyRefresh (setRefreshToken (setRefreshToken store idv t1) idv t2) idv t1
      = .error .tokenRevoked ∧
    verifyRefresh (clearRefreshToken store idv) idv tok
      = .error .tokenRevoked := by
  refine ⟨?_, ?_, ?_⟩
  · simp [setRefreshToken]
  · simp [verifyRefresh, setRefreshToken, hne]
  · simp [verifyRefresh, clearRefreshToken]

/-- C9 witness: the single-session overwrite and the logout clearing at
concrete identities and tokens. -/
theorem C9_single_session_witness :
    (setRefreshToken (setRefreshToken emptySessionStore "id1" "r1") "id1" "r2")
      "id1" = some "r2" ∧
    verifyRefresh (setRefreshToken (setRefreshToken emptySessionStore "id1" "r1")
      "id1" "r2") "id1" "r1" = .error .tokenRevoked :=
  ⟨(C9_single_session emptySessionStore "id1" "r1" "r2" "r1" (by decide)).1,
   (C9_single_session emptySessionStore "id1" "r1" "r2" "r1" (by decide)).2.1⟩
